import Mathlib

/-!
Shallow embedding of the conversation-orchestration core of the
AcupressureDianoseAgent mini-program (`src/miniprogram/pages/index/index.js`):
the `sendMessage` controller, the `callChatAPI` transport wrapper, and the
image-resolution adapter (`loadAcupointImages` / `getImages`).

JavaScript values that may be `undefined` are modelled with `Option`; the
falsy-or idiom `x || d` on strings is modelled by `jsOr` (empty string and
`undefined` both fall back to the default), while `arr || []` on arrays is
`Option.getD` (a present empty array is truthy in JS and passes through).
Network behaviour is an explicit environment (`SubmitEnv`): the outcome of the
single `wx.request` to `/chat` and, per acupoint code, the outcome of the
`wx.request` to `/images/{code}`.
-/

namespace Acupressure

/-- Message kinds carried in the `type` field of a log record.  A user message
has no `type` field in the source, which is modelled as `none` at use sites. -/
inductive MsgType where
  | text
  | loading
  | diagnosis
deriving Repr, DecidableEq

/-- A recommended acupoint as delivered by the diagnosis service: a `code`
plus further descriptive fields that the controller passes through opaquely. -/
structure RecommendedPoint where
  code : String
  fields : List (String × String)
deriving Repr, DecidableEq

/-- A recommended point enriched with its resolved image URL list
(the `{...point, images: ...}` spread in `loadAcupointImages`). -/
structure ResolvedPoint where
  point : RecommendedPoint
  images : List String
deriving Repr, DecidableEq

/-- One record of the message log.  Fields that a given record shape does not
set in the source (JS `undefined`) are `none`. -/
structure Msg where
  id : Nat
  isUser : Bool
  type : Option MsgType
  content : Option String
  title : Option String
  llmResponse : Option String
  acupoints : Option (List ResolvedPoint)
  disclaimer : Option String
deriving Repr, DecidableEq

/-- The page state touched by `sendMessage`: `data.messages`, `data.inputValue`,
`data.sending`, `data.messageId`. -/
structure PageData where
  messages : List Msg
  inputValue : String
  sending : Bool
  messageId : Nat
deriving Repr, DecidableEq

/-- The `diagnosis` payload of a keyword-mode response. -/
structure DiagnosisPayload where
  symptom : String
  acupoints : Option (List RecommendedPoint)
  disclaimer : Option String
deriving Repr, DecidableEq

/-- The JSON body of a `/chat` response, with the fields the controller reads. -/
structure ChatResponse where
  success : Bool
  message : Option String
  mode : Option String
  llm_response : Option String
  recommended_acupoints : Option (List RecommendedPoint)
  diagnosis : Option DiagnosisPayload
deriving Repr, DecidableEq

/-- Outcome of the `wx.request` to `POST /chat`: a response with a status code
and parsed body, or a transport-level failure (the `fail` callback). -/
inductive ChatOutcome where
  | response (statusCode : Nat) (data : ChatResponse)
  | fail
deriving Repr, DecidableEq

/-- Body of a `/images/{code}` response: its `images` field may be absent. -/
structure ImagesData where
  images : Option (List String)
deriving Repr, DecidableEq

/-- Outcome of the `wx.request` to `GET /images/{code}`. -/
inductive ImgOutcome where
  | response (statusCode : Nat) (data : ImagesData)
  | fail
deriving Repr, DecidableEq

/-- The ambient network behaviour of one submission: the `/chat` outcome, the
per-code `/images` outcomes, and the configured `app.globalData.apiBase`. -/
structure SubmitEnv where
  chat : ChatOutcome
  imgFetch : String → ImgOutcome
  apiBase : String

/-- JS `String.prototype.trim()`: strip leading and trailing whitespace.
Defined structurally on the character list so that concrete inputs evaluate. -/
def trimString (s : String) : String :=
  String.mk (((s.data.dropWhile Char.isWhitespace).reverse.dropWhile
    Char.isWhitespace).reverse)

/-- JS falsy-or on an optional string: `x || d` where `undefined` and `""` are
falsy. -/
def jsOr (x : Option String) (d : String) : String :=
  match x with
  | some s => if s = "" then d else s
  | none => d

/-- Fallback text for a soft diagnosis failure with no server message. -/
def fallbackText : String :=
  "抱歉，我没有找到匹配的症状。请试试：头痛、失眠、焦虑、腰痛、颈椎等关键词。"

/-- Fixed text shown when the diagnosis call fails at the transport level. -/
def netErrText : String := "无法连接服务器，请检查网络连接。"

/-- Title synthesized in keyword mode: `针对「symptom」推荐以下穴位：`. -/
def titleFor (symptom : String) : String :=
  "针对「" ++ symptom ++ "」推荐以下穴位："

/-- `callChatAPI`: resolves the parsed body on status 200, rejects otherwise
(both the non-200 branch and the `fail` callback reject). -/
def callChatAPI : ChatOutcome → Except Unit ChatResponse
  | ChatOutcome.response sc data => if sc = 200 then Except.ok data else Except.error ()
  | ChatOutcome.fail => Except.error ()

/-- `getImages`: resolves the body on status 200 and resolves `{images: []}`
on any non-200 status or transport failure; it never rejects. -/
def getImages (env : String → ImgOutcome) (code : String) : ImagesData :=
  match env code with
  | ImgOutcome.response sc data => if sc = 200 then data else { images := some [] }
  | ImgOutcome.fail => { images := some [] }

/-- The per-point body of the `loadAcupointImages` loop:
`{...point, images: (imgRes.images || []).slice(0, 6).map(img => apiBase + img)}`. -/
def resolvePoint (apiBase : String) (env : String → ImgOutcome)
    (point : RecommendedPoint) : ResolvedPoint :=
  { point := point,
    images := (((getImages env point.code).images.getD []).take 6).map
      (fun img => apiBase ++ img) }

/-- `loadAcupointImages`: resolves every recommended point independently, in
input order, accumulating the results. -/
def loadAcupointImages (apiBase : String) (env : String → ImgOutcome)
    (acupoints : List RecommendedPoint) : List ResolvedPoint :=
  acupoints.map (resolvePoint apiBase env)

/-- The user message appended on acceptance: `{id, isUser: true, content}`. -/
def mkUserMsg (msgId : Nat) (message : String) : Msg :=
  { id := msgId, isUser := true, type := none, content := some message,
    title := none, llmResponse := none, acupoints := none, disclaimer := none }

/-- The transient loading message: `{id, isUser: false, type: 'loading'}`. -/
def mkLoadingMsg (msgId : Nat) : Msg :=
  { id := msgId, isUser := false, type := some MsgType.loading, content := none,
    title := none, llmResponse := none, acupoints := none, disclaimer := none }

/-- A plain assistant text message: `{id, isUser: false, type: 'text', content}`. -/
def mkTextMsg (msgId : Nat) (content : String) : Msg :=
  { id := msgId, isUser := false, type := some MsgType.text, content := some content,
    title := none, llmResponse := none, acupoints := none, disclaimer := none }

/-- The filter predicate `m => m.type !== 'loading'` used to drop the loading
message (by kind, not id). -/
def notLoading (m : Msg) : Bool := m.type != some MsgType.loading

/-- Building the `diagnosis` result message for a successful response.
`Except.error` models the uncaught `TypeError` thrown by `diagnosis.symptom`
when the keyword branch runs with no `diagnosis` object. -/
def buildDiagnosisMsg (env : SubmitEnv) (newId : Nat) (r : ChatResponse) :
    Except Unit Msg :=
  if r.mode = some "llm" then
    Except.ok
      { id := newId, isUser := false, type := some MsgType.diagnosis,
        content := none, title := some "",
        llmResponse := r.llm_response,
        acupoints := some (loadAcupointImages env.apiBase env.imgFetch
          (r.recommended_acupoints.getD [])),
        disclaimer := some "" }
  else
    match r.diagnosis with
    | none => Except.error ()
    | some d =>
      Except.ok
        { id := newId, isUser := false, type := some MsgType.diagnosis,
          content := none, title := some (titleFor d.symptom),
          llmResponse := some "",
          acupoints := some (loadAcupointImages env.apiBase env.imgFetch
            (d.acupoints.getD [])),
          disclaimer := some (jsOr d.disclaimer "") }

/-- The `try` block of `sendMessage` after the first `setData`: awaits the chat
call, filters out the loading message, and appends either the soft-failure text
message or the diagnosis message.  `Except.error` is any thrown/rejected value,
handed to the `catch` block. -/
def tryBody (env : SubmitEnv) (s1 : PageData) : Except Unit (PageData × Msg) :=
  match callChatAPI env.chat with
  | Except.error e => Except.error e
  | Except.ok r =>
    let filtered := s1.messages.filter notLoading
    if r.success = false then
      let t := mkTextMsg (s1.messageId + 1) (jsOr r.message fallbackText)
      Except.ok ({ s1 with messages := filtered ++ [t],
                           messageId := s1.messageId + 1 }, t)
    else
      match buildDiagnosisMsg env (s1.messageId + 1) r with
      | Except.error e => Except.error e
      | Except.ok t =>
        Except.ok ({ s1 with messages := filtered ++ [t],
                             messageId := s1.messageId + 1 }, t)

/-- An abstract mutation of the message log: appending one record, or removing
the loading record by kind (the `filter` in the source). -/
inductive LogEvent where
  | append (m : Msg)
  | removeLoading
deriving Repr, DecidableEq

/-- Apply one log mutation to a log value. -/
def applyEvent (log : List Msg) : LogEvent → List Msg
  | LogEvent.append m => log ++ [m]
  | LogEvent.removeLoading => log.filter notLoading

/-- Apply a sequence of log mutations. -/
def applyEvents (log : List Msg) (es : List LogEvent) : List Msg :=
  es.foldl applyEvent log

/-- The observable outcome of one `sendMessage` call: the final page state,
whether the chat endpoint was invoked, the sequence of log mutations performed,
and the log values made visible by each `setData` that changed `messages`. -/
structure SubmitResult where
  state : PageData
  chatCalled : Bool
  trace : List LogEvent
  snapshots : List (List Msg)
deriving Repr

/-- Assembling the result from the `try` outcome: the `catch` block removes the
loading message from the still-current log and appends the fixed network-error
text; the trailing `setData({ sending: false })` runs on every path. -/
def finishSubmit (userMsg loadingMsg : Msg) (s1 : PageData)
    (r : Except Unit (PageData × Msg)) : SubmitResult :=
  match r with
  | Except.ok (s2, term) =>
    { state := { s2 with sending := false },
      chatCalled := true,
      trace := [LogEvent.append userMsg, LogEvent.append loadingMsg,
                LogEvent.removeLoading, LogEvent.append term],
      snapshots := [s1.messages, s2.messages] }
  | Except.error _ =>
    let filtered := s1.messages.filter notLoading
    let term := mkTextMsg (s1.messageId + 1) netErrText
    let s2 : PageData := { s1 with messages := filtered ++ [term],
                                   messageId := s1.messageId + 1 }
    { state := { s2 with sending := false },
      chatCalled := true,
      trace := [LogEvent.append userMsg, LogEvent.append loadingMsg,
                LogEvent.removeLoading, LogEvent.append term],
      snapshots := [s1.messages, s2.messages] }

/-- `sendMessage`: the guard, the optimistic append of the user and loading
messages in one `setData`, the awaited chat call, and branch handling. -/
def sendMessage (env : SubmitEnv) (s : PageData) : SubmitResult :=
  let message := (trimString s.inputValue)
  if message = "" ∨ s.sending = true then
    { state := s, chatCalled := false, trace := [], snapshots := [] }
  else
    let msgId := s.messageId + 1
    let userMsg := mkUserMsg msgId message
    let loadingMsg := mkLoadingMsg (msgId + 1)
    let s1 : PageData :=
      { messages := s.messages ++ [userMsg, loadingMsg],
        inputValue := "", sending := true, messageId := msgId + 1 }
    finishSubmit userMsg loadingMsg s1 (tryBody env s1)

/-- The log value set by the first `setData` of an accepted submission: the
previous log plus the user message and the loading message. -/
def optimisticLog (s : PageData) : List Msg :=
  s.messages ++ [mkUserMsg (s.messageId + 1) (trimString s.inputValue),
                 mkLoadingMsg (s.messageId + 2)]

/-- A per-point image fetch that failed: transport error (`fail` callback) or a
non-2xx status code. -/
def imgFetchFailed : ImgOutcome → Prop
  | ImgOutcome.response sc _ => sc < 200 ∨ 300 ≤ sc
  | ImgOutcome.fail => True

/-- The ids of the messages appended by a mutation sequence, in order —
including ids of loading messages that are later removed. -/
def appendedIds : List LogEvent → List Nat
  | [] => []
  | LogEvent.append m :: es => m.id :: appendedIds es
  | LogEvent.removeLoading :: es => appendedIds es

/-- A whole session: each step types some input (`onInputChange`) and invokes
`sendMessage` under some network behaviour; the second component collects the
ids of every message appended across the session, in order. -/
def runSession : PageData → List (String × SubmitEnv) → PageData × List Nat
  | s, [] => (s, [])
  | s, (txt, env) :: rest =>
    let r := sendMessage env { s with inputValue := txt }
    let p := runSession r.state rest
    (p.1, appendedIds r.trace ++ p.2)

/-! ### Concrete fixtures used by witnesses and counterexamples -/

/-- An image environment where every fetch fails at the transport level. -/
def imgEnvFail : String → ImgOutcome := fun _ => ImgOutcome.fail

/-- An image environment where every fetch returns seven relative paths. -/
def imgEnvSeven : String → ImgOutcome := fun _ =>
  ImgOutcome.response 200
    { images := some ["/i1.png", "/i2.png", "/i3.png", "/i4.png", "/i5.png",
                      "/i6.png", "/i7.png"] }

/-- A chat environment whose `/chat` request fails at the transport level. -/
def envFail : SubmitEnv :=
  { chat := ChatOutcome.fail, imgFetch := imgEnvFail, apiBase := "https://api.example" }

/-- A soft-failure response with no `message` field. -/
def softResp : ChatResponse :=
  { success := false, message := none, mode := none, llm_response := none,
    recommended_acupoints := none, diagnosis := none }

/-- Environment delivering `softResp` with status 200. -/
def envSoft : SubmitEnv :=
  { chat := ChatOutcome.response 200 softResp, imgFetch := imgEnvFail,
    apiBase := "https://api.example" }

/-- A soft-failure response whose `message` field is present but empty. -/
def emptyMsgResp : ChatResponse :=
  { success := false, message := some "", mode := none, llm_response := none,
    recommended_acupoints := none, diagnosis := none }

/-- Environment delivering `emptyMsgResp` with status 200. -/
def envEmptyMsg : SubmitEnv :=
  { chat := ChatOutcome.response 200 emptyMsgResp, imgFetch := imgEnvFail,
    apiBase := "https://api.example" }

/-- A successful llm-mode response recommending one point. -/
def llmResp : ChatResponse :=
  { success := true, message := none, mode := some "llm",
    llm_response := some "try LI4", recommended_acupoints := some [⟨"LI4", []⟩],
    diagnosis := none }

/-- Environment delivering `llmResp` with status 200. -/
def envLlm : SubmitEnv :=
  { chat := ChatOutcome.response 200 llmResp, imgFetch := imgEnvSeven,
    apiBase := "https://api.example" }

/-- A successful keyword-mode response with one matched symptom. -/
def kwResp : ChatResponse :=
  { success := true, message := none, mode := none, llm_response := none,
    recommended_acupoints := none,
    diagnosis := some { symptom := "头痛", acupoints := some [⟨"GB20", []⟩],
                        disclaimer := some "仅供参考" } }

/-- Environment delivering `kwResp` with status 200. -/
def envKw : SubmitEnv :=
  { chat := ChatOutcome.response 200 kwResp, imgFetch := imgEnvSeven,
    apiBase := "https://api.example" }

/-- A malformed success: keyword mode claimed but no `diagnosis` object. -/
def noDiagResp : ChatResponse :=
  { success := true, message := none, mode := none, llm_response := none,
    recommended_acupoints := none, diagnosis := none }

/-- Environment delivering `noDiagResp` with status 200. -/
def envNoDiag : SubmitEnv :=
  { chat := ChatOutcome.response 200 noDiagResp, imgFetch := imgEnvFail,
    apiBase := "https://api.example" }

/-- A fresh page state with the draft input `"hi"`. -/
def sReady : PageData := { messages := [], inputValue := "hi", sending := false, messageId := 0 }

/-! ### Shape lemmas shared by the claim theorems -/

/-- Every non-throwing `try` outcome is the filtered log plus one terminal
message carrying the next id. -/
theorem tryBody_shape (env : SubmitEnv) (s1 : PageData) :
    tryBody env s1 = Except.error () ∨
    ∃ t : Msg,
      tryBody env s1 =
        Except.ok ({ s1 with messages := s1.messages.filter notLoading ++ [t],
                             messageId := s1.messageId + 1 }, t) ∧
      t.id = s1.messageId + 1 ∧ t.isUser = false ∧
      (t.type = some MsgType.text ∨ t.type = some MsgType.diagnosis) := by
  rcases hc : callChatAPI env.chat with e | r
  · left; cases e; simp [tryBody, hc]
  · by_cases hs : r.success = false
    · right
      refine ⟨mkTextMsg (s1.messageId + 1) (jsOr r.message fallbackText),
        ?_, rfl, rfl, Or.inl rfl⟩
      simp [tryBody, hc, hs]
    · by_cases hm : r.mode = some "llm"
      · right
        refine ⟨Msg.mk (s1.messageId + 1) false (some MsgType.diagnosis) none
          (some "") r.llm_response
          (some (loadAcupointImages env.apiBase env.imgFetch
            (r.recommended_acupoints.getD []))) (some ""),
          ?_, rfl, rfl, Or.inr rfl⟩
        simp [tryBody, hc, hs, buildDiagnosisMsg, hm]
      · cases hd : r.diagnosis with
        | none => left; simp [tryBody, hc, hs, buildDiagnosisMsg, hm, hd]
        | some d =>
          right
          refine ⟨Msg.mk (s1.messageId + 1) false (some MsgType.diagnosis) none
            (some (titleFor d.symptom)) (some "")
            (some (loadAcupointImages env.apiBase env.imgFetch
              (d.acupoints.getD []))) (some (jsOr d.disclaimer "")),
            ?_, rfl, rfl, Or.inr rfl⟩
          simp [tryBody, hc, hs, buildDiagnosisMsg, hm, hd]

/-- A rejected call (empty trimmed input, or a submission already pending) is a
complete no-op: same state, no chat call, no log mutation, no render. -/
theorem sendMessage_rejected (env : SubmitEnv) (s : PageData)
    (h : (trimString s.inputValue) = "" ∨ s.sending = true) :
    sendMessage env s =
      { state := s, chatCalled := false, trace := [], snapshots := [] } := by
  unfold sendMessage
  rw [if_pos h]

/-- An accepted call always produces the same overall shape, whatever the
network does: the two optimistic appends, then the filtered log plus one
terminal message, with `sending` cleared and the counter at `messageId + 3`. -/
theorem sendMessage_accepted_shape (env : SubmitEnv) (s : PageData)
    (h1 : ¬ (trimString s.inputValue) = "") (h2 : s.sending = false) :
    ∃ t : Msg,
      sendMessage env s =
        SubmitResult.mk
          (PageData.mk ((optimisticLog s).filter notLoading ++ [t]) "" false
            (s.messageId + 3))
          true
          [LogEvent.append (mkUserMsg (s.messageId + 1) (trimString s.inputValue)),
           LogEvent.append (mkLoadingMsg (s.messageId + 2)),
           LogEvent.removeLoading, LogEvent.append t]
          [optimisticLog s, (optimisticLog s).filter notLoading ++ [t]] ∧
      t.id = s.messageId + 3 ∧ t.isUser = false ∧
      (t.type = some MsgType.text ∨ t.type = some MsgType.diagnosis) := by
  unfold sendMessage
  rw [if_neg (by simp [h1, h2])]
  dsimp only
  rcases tryBody_shape env
      (PageData.mk (s.messages ++ [mkUserMsg (s.messageId + 1) (trimString s.inputValue),
        mkLoadingMsg (s.messageId + 1 + 1)]) "" true (s.messageId + 1 + 1))
    with herr | ⟨t, hok, hid, hiu, hty⟩
  · refine ⟨mkTextMsg (s.messageId + 3) netErrText, ?_, rfl, rfl, Or.inl rfl⟩
    rw [herr]
    rfl
  · refine ⟨t, ?_, hid, hiu, hty⟩
    rw [hok]
    rfl

/-- The user message survives the loading filter. -/
theorem notLoading_mkUserMsg (mid : Nat) (txt : String) :
    notLoading (mkUserMsg mid txt) = true := rfl

/-- The loading message is dropped by the loading filter. -/
theorem notLoading_mkLoadingMsg (mid : Nat) :
    notLoading (mkLoadingMsg mid) = false := rfl

/-- A text message survives the loading filter. -/
theorem notLoading_mkTextMsg (mid : Nat) (c : String) :
    notLoading (mkTextMsg mid c) = true := rfl

/-- Filtering the optimistic log drops exactly the loading message. -/
theorem filter_optimisticLog (s : PageData) :
    (optimisticLog s).filter notLoading =
      s.messages.filter notLoading ++
        [mkUserMsg (s.messageId + 1) (trimString s.inputValue)] := by
  rw [optimisticLog, List.filter_append]
  rfl

/-- The last element of a log ending in one appended record. -/
theorem getLast?_append_singleton (l : List Msg) (a : Msg) :
    (l ++ [a]).getLast? = some a := by
  induction l with
  | nil => rfl
  | cons x xs ih =>
    cases xs with
    | nil => rfl
    | cons y ys =>
      rw [List.cons_append, List.cons_append, List.getLast?_cons_cons,
        ← List.cons_append]
      exact ih

/-- An accepted call is the result assembly applied to the `try` outcome, run
from the optimistically updated state. -/
theorem sendMessage_eq (env : SubmitEnv) (s : PageData)
    (h1 : ¬ (trimString s.inputValue) = "") (h2 : s.sending = false) :
    sendMessage env s =
      finishSubmit (mkUserMsg (s.messageId + 1) (trimString s.inputValue))
        (mkLoadingMsg (s.messageId + 2))
        (PageData.mk (optimisticLog s) "" true (s.messageId + 2))
        (tryBody env (PageData.mk (optimisticLog s) "" true (s.messageId + 2))) := by
  unfold sendMessage
  rw [if_neg (by simp [h1, h2])]
  rfl

/-- When the `try` block throws, the submission ends in the `catch` shape: the
filtered log plus the user message and the fixed network-error text. -/
theorem sendMessage_error_shape (env : SubmitEnv) (s : PageData)
    (h1 : ¬ (trimString s.inputValue) = "") (h2 : s.sending = false)
    (herr : tryBody env (PageData.mk (optimisticLog s) "" true (s.messageId + 2)) =
      Except.error ()) :
    sendMessage env s = SubmitResult.mk
      (PageData.mk
        (s.messages.filter notLoading ++
          [mkUserMsg (s.messageId + 1) (trimString s.inputValue),
           mkTextMsg (s.messageId + 3) netErrText])
        "" false (s.messageId + 3))
      true
      [LogEvent.append (mkUserMsg (s.messageId + 1) (trimString s.inputValue)),
       LogEvent.append (mkLoadingMsg (s.messageId + 2)),
       LogEvent.removeLoading,
       LogEvent.append (mkTextMsg (s.messageId + 3) netErrText)]
      [optimisticLog s,
       s.messages.filter notLoading ++
         [mkUserMsg (s.messageId + 1) (trimString s.inputValue),
          mkTextMsg (s.messageId + 3) netErrText]] := by
  rw [sendMessage_eq env s h1 h2, herr]
  simp [finishSubmit, filter_optimisticLog, List.append_assoc]

/-- When the `try` block completes, the submission result is its state with
`sending` cleared. -/
theorem sendMessage_ok_shape (env : SubmitEnv) (s : PageData)
    (h1 : ¬ trimString s.inputValue = "") (h2 : s.sending = false)
    (s2 : PageData) (t : Msg)
    (hok : tryBody env (PageData.mk (optimisticLog s) "" true (s.messageId + 2)) =
      Except.ok (s2, t)) :
    sendMessage env s = SubmitResult.mk
      (PageData.mk s2.messages s2.inputValue false s2.messageId)
      true
      [LogEvent.append (mkUserMsg (s.messageId + 1) (trimString s.inputValue)),
       LogEvent.append (mkLoadingMsg (s.messageId + 2)),
       LogEvent.removeLoading, LogEvent.append t]
      [optimisticLog s, s2.messages] := by
  rw [sendMessage_eq env s h1 h2, hok]
  rfl

/-! ### Claim theorems -/

/-- C2: a `submit` call whose trimmed input is empty, or that arrives while a
submission is already pending, is a complete no-op: the page state (message
log, draft input, pending flag, id counter) is unchanged, no chat request is
issued, no log mutation happens, and nothing new is rendered. -/
theorem guard_rejection_noop (env : SubmitEnv) (s : PageData)
    (h : (trimString s.inputValue) = "" ∨ s.sending = true) :
    (sendMessage env s).state = s ∧
    (sendMessage env s).chatCalled = false ∧
    (sendMessage env s).trace = [] ∧
    (sendMessage env s).snapshots = [] := by
  rw [sendMessage_rejected env s h]
  exact ⟨rfl, rfl, rfl, rfl⟩

/-- Witness for `guard_rejection_noop`: a whitespace-only draft is rejected
without any state change. -/
theorem guard_rejection_noop_witness :
    (trimString (PageData.mk [] "   " false 0).inputValue = "" ∨
      (PageData.mk [] "   " false 0).sending = true) ∧
    (sendMessage envFail (PageData.mk [] "   " false 0)).state =
      PageData.mk [] "   " false 0 :=
  ⟨Or.inl rfl,
    (guard_rejection_noop envFail (PageData.mk [] "   " false 0) (Or.inl rfl)).1⟩

/-- C3: every accepted submission — whatever the network outcome — ends with
the pending flag cleared, and a subsequent submit with non-empty input is
accepted (it reaches the chat call again). -/
theorem finalization_clears_pending (env env2 : SubmitEnv) (s : PageData)
    (t2 : String) (h1 : ¬ (trimString s.inputValue) = "") (h2 : s.sending = false)
    (h3 : ¬ trimString t2 = "") :
    (sendMessage env s).state.sending = false ∧
    (sendMessage env2
      { (sendMessage env s).state with inputValue := t2 }).chatCalled = true := by
  obtain ⟨t, heq, -, -, -⟩ := sendMessage_accepted_shape env s h1 h2
  rw [heq]
  refine ⟨rfl, ?_⟩
  obtain ⟨t2m, heq2, -, -, -⟩ := sendMessage_accepted_shape env2
    (PageData.mk ((optimisticLog s).filter notLoading ++ [t]) t2 false
      (s.messageId + 3)) h3 rfl
  rw [heq2]

/-- Witness for `finalization_clears_pending`: after a soft failure the guard
is clear again. -/
theorem finalization_clears_pending_witness :
    ¬ trimString sReady.inputValue = "" ∧ sReady.sending = false ∧
    ¬ trimString "again" = "" ∧
    (sendMessage envSoft sReady).state.sending = false :=
  ⟨by decide, rfl, by decide,
    (finalization_clears_pending envSoft envFail sReady "again"
      (by decide) rfl (by decide)).1⟩

/-- C8: when the diagnosis call fails at the transport level (network error or
non-200 status — `callChatAPI` rejects), the loading message is removed, the
fixed cannot-reach-server text is appended as the sole terminal message, and
the pending flag is cleared. -/
theorem transport_failure_path (env : SubmitEnv) (s : PageData)
    (h1 : ¬ (trimString s.inputValue) = "") (h2 : s.sending = false)
    (h3 : callChatAPI env.chat = Except.error ()) :
    (sendMessage env s).state.messages =
      s.messages.filter notLoading ++
        [mkUserMsg (s.messageId + 1) (trimString s.inputValue),
         mkTextMsg (s.messageId + 3) netErrText] ∧
    (∀ m ∈ (sendMessage env s).state.messages, notLoading m = true) ∧
    (sendMessage env s).state.sending = false := by
  have herr : tryBody env (PageData.mk (optimisticLog s) "" true (s.messageId + 2)) =
      Except.error () := by
    unfold tryBody
    rw [h3]
  rw [sendMessage_error_shape env s h1 h2 herr]
  refine ⟨rfl, ?_, rfl⟩
  intro m hm
  rcases List.mem_append.1 hm with hmf | hmt
  · exact List.of_mem_filter hmf
  · simp only [List.mem_cons, List.mem_singleton] at hmt
    rcases hmt with rfl | rfl | h
    · rfl
    · rfl
    · exact absurd h (List.not_mem_nil m)

/-- Witness for `transport_failure_path`: a rejected `/chat` request yields the
fixed network-error terminal and clears the guard. -/
theorem transport_failure_path_witness :
    ¬ trimString sReady.inputValue = "" ∧ sReady.sending = false ∧
    callChatAPI envFail.chat = Except.error () ∧
    (sendMessage envFail sReady).state.sending = false :=
  ⟨by decide, rfl, rfl,
    (transport_failure_path envFail sReady (by decide) rfl rfl).2.2⟩

/-- C10: a success-flagged keyword-mode response with no `diagnosis` object
does not produce a diagnosis message and does not wedge the page: the thrown
`TypeError` is caught, the loading message is removed, the fixed
cannot-reach-server text becomes the terminal message, and the pending flag is
cleared. -/
theorem missing_diagnosis_path (env : SubmitEnv) (s : PageData)
    (r : ChatResponse)
    (h1 : ¬ (trimString s.inputValue) = "") (h2 : s.sending = false)
    (h3 : env.chat = ChatOutcome.response 200 r) (h4 : r.success = true)
    (h5 : ¬ r.mode = some "llm") (h6 : r.diagnosis = none) :
    (sendMessage env s).state.messages =
      s.messages.filter notLoading ++
        [mkUserMsg (s.messageId + 1) (trimString s.inputValue),
         mkTextMsg (s.messageId + 3) netErrText] ∧
    (∀ m ∈ (sendMessage env s).state.messages, notLoading m = true) ∧
    (sendMessage env s).state.sending = false := by
  have herr : tryBody env (PageData.mk (optimisticLog s) "" true (s.messageId + 2)) =
      Except.error () := by
    simp [tryBody, callChatAPI, h3, h4, buildDiagnosisMsg, h5, h6]
  rw [sendMessage_error_shape env s h1 h2 herr]
  refine ⟨rfl, ?_, rfl⟩
  intro m hm
  rcases List.mem_append.1 hm with hmf | hmt
  · exact List.of_mem_filter hmf
  · simp only [List.mem_cons, List.mem_singleton] at hmt
    rcases hmt with rfl | rfl | h
    · rfl
    · rfl
    · exact absurd h (List.not_mem_nil m)

/-- Witness for `missing_diagnosis_path`: the concrete malformed success. -/
theorem missing_diagnosis_path_witness :
    noDiagResp.success = true ∧ noDiagResp.diagnosis = none ∧
    (sendMessage envNoDiag sReady).state.sending = false :=
  ⟨rfl, rfl,
    (missing_diagnosis_path envNoDiag sReady noDiagResp (by decide) rfl rfl rfl
      (by decide) rfl).2.2⟩

/-- C4: image resolution preserves length and positional correspondence — the
`i`-th output wraps exactly the `i`-th input point — and a failed per-point
fetch (transport error or non-2xx) only empties that point's image list;
resolution is a total function and never propagates an error. -/
theorem resolve_positional (b : String) (env : String → ImgOutcome)
    (pts : List RecommendedPoint) (i : Nat) (p : RecommendedPoint)
    (h : pts.get? i = some p) :
    (loadAcupointImages b env pts).length = pts.length ∧
    (loadAcupointImages b env pts).get? i = some (resolvePoint b env p) ∧
    (resolvePoint b env p).point = p ∧
    (imgFetchFailed (env p.code) → (resolvePoint b env p).images = []) := by
  refine ⟨by simp [loadAcupointImages], ?_, rfl, ?_⟩
  · rw [loadAcupointImages, List.get?_map, h]
    rfl
  · intro hf
    unfold resolvePoint getImages
    cases he : env p.code with
    | response sc d =>
      rw [he] at hf
      unfold imgFetchFailed at hf
      have hne : ¬ sc = 200 := by omega
      simp [hne]
    | fail => simp

/-- Witness for `resolve_positional`: with every fetch failing, the first of
two points resolves to an empty image list. -/
theorem resolve_positional_witness :
    ([RecommendedPoint.mk "GB20" [], RecommendedPoint.mk "LI4" []].get? 0 =
      some (RecommendedPoint.mk "GB20" [])) ∧
    (loadAcupointImages "b" imgEnvFail
      [RecommendedPoint.mk "GB20" [], RecommendedPoint.mk "LI4" []]).length = 2 ∧
    (resolvePoint "b" imgEnvFail (RecommendedPoint.mk "GB20" [])).images = [] := by
  have h := resolve_positional "b" imgEnvFail
    [RecommendedPoint.mk "GB20" [], RecommendedPoint.mk "LI4" []] 0
    (RecommendedPoint.mk "GB20" []) rfl
  exact ⟨rfl, h.1, h.2.2.2 trivial⟩

/-- C5: a successful per-point fetch with `n` relative paths yields the first
`min n 6` of them, in server order, each prefixed with the configured base. -/
theorem image_cap (b : String) (env : String → ImgOutcome)
    (p : RecommendedPoint) (paths : List String)
    (h : env p.code = ImgOutcome.response 200 { images := some paths }) :
    (resolvePoint b env p).images =
      (paths.take 6).map (fun img => b ++ img) ∧
    (resolvePoint b env p).images.length = min paths.length 6 := by
  unfold resolvePoint getImages
  rw [h]
  simp [List.length_take, Nat.min_comm]

/-- C6: for a successful diagnosis response the terminal message is a
`diagnosis` record whose fields branch on `mode`: llm mode carries the
free-text answer, empty title and disclaimer, and points resolved from
`recommended_acupoints` (absent list treated as empty); any other mode carries
a title synthesized from the matched symptom, points resolved from the
payload's acupoint list, and the payload's disclaimer (empty if absent). -/
theorem success_mode_branching (env : SubmitEnv) (s : PageData)
    (r : ChatResponse)
    (h1 : ¬ trimString s.inputValue = "") (h2 : s.sending = false)
    (h3 : env.chat = ChatOutcome.response 200 r) (h4 : r.success = true) :
    (r.mode = some "llm" →
      (sendMessage env s).state.messages.getLast? = some
        (Msg.mk (s.messageId + 3) false (some MsgType.diagnosis) none (some "")
          r.llm_response
          (some (loadAcupointImages env.apiBase env.imgFetch
            (r.recommended_acupoints.getD []))) (some ""))) ∧
    (∀ d, ¬ r.mode = some "llm" → r.diagnosis = some d →
      (sendMessage env s).state.messages.getLast? = some
        (Msg.mk (s.messageId + 3) false (some MsgType.diagnosis) none
          (some (titleFor d.symptom)) (some "")
          (some (loadAcupointImages env.apiBase env.imgFetch
            (d.acupoints.getD []))) (some (jsOr d.disclaimer "")))) := by
  constructor
  · intro hm
    have hok : tryBody env
        (PageData.mk (optimisticLog s) "" true (s.messageId + 2)) =
        Except.ok (PageData.mk
          ((optimisticLog s).filter notLoading ++
            [Msg.mk (s.messageId + 2 + 1) false (some MsgType.diagnosis) none
              (some "") r.llm_response
              (some (loadAcupointImages env.apiBase env.imgFetch
                (r.recommended_acupoints.getD []))) (some "")])
          "" true (s.messageId + 2 + 1),
          Msg.mk (s.messageId + 2 + 1) false (some MsgType.diagnosis) none
            (some "") r.llm_response
            (some (loadAcupointImages env.apiBase env.imgFetch
              (r.recommended_acupoints.getD []))) (some "")) := by
      simp [tryBody, callChatAPI, h3, h4, buildDiagnosisMsg, hm]
    rw [sendMessage_ok_shape env s h1 h2 _ _ hok]
    exact getLast?_append_singleton _ _
  · intro d hm hd
    have hok : tryBody env
        (PageData.mk (optimisticLog s) "" true (s.messageId + 2)) =
        Except.ok (PageData.mk
          ((optimisticLog s).filter notLoading ++
            [Msg.mk (s.messageId + 2 + 1) false (some MsgType.diagnosis) none
              (some (titleFor d.symptom)) (some "")
              (some (loadAcupointImages env.apiBase env.imgFetch
                (d.acupoints.getD []))) (some (jsOr d.disclaimer ""))])
          "" true (s.messageId + 2 + 1),
          Msg.mk (s.messageId + 2 + 1) false (some MsgType.diagnosis) none
            (some (titleFor d.symptom)) (some "")
            (some (loadAcupointImages env.apiBase env.imgFetch
              (d.acupoints.getD []))) (some (jsOr d.disclaimer ""))) := by
      simp [tryBody, callChatAPI, h3, h4, buildDiagnosisMsg, hm, hd]
    rw [sendMessage_ok_shape env s h1 h2 _ _ hok]
    exact getLast?_append_singleton _ _

/-- Witness for `success_mode_branching`: the concrete keyword-mode response
yields the synthesized title, copied disclaimer and one resolved point. -/
theorem success_mode_branching_witness :
    kwResp.success = true ∧ ¬ kwResp.mode = some "llm" ∧
    kwResp.diagnosis = some (DiagnosisPayload.mk "头痛"
      (some [RecommendedPoint.mk "GB20" []]) (some "仅供参考")) ∧
    (sendMessage envKw sReady).state.messages.getLast? = some
      (Msg.mk 3 false (some MsgType.diagnosis) none
        (some (titleFor "头痛")) (some "")
        (some (loadAcupointImages "https://api.example" imgEnvSeven
          [RecommendedPoint.mk "GB20" []])) (some (jsOr (some "仅供参考") ""))) :=
  ⟨rfl, by decide, rfl,
    (success_mode_branching envKw sReady kwResp (by decide) rfl rfl rfl).2
      (DiagnosisPayload.mk "头痛" (some [RecommendedPoint.mk "GB20" []])
        (some "仅供参考")) (by decide) rfl⟩

/-- C7 (amended): on a soft failure the terminal message is a plain assistant
text whose content is the server message when a non-empty one is supplied, and
the fixed non-empty fallback when the message field is absent or empty. -/
theorem soft_failure_fallback (env : SubmitEnv) (s : PageData)
    (r : ChatResponse)
    (h1 : ¬ trimString s.inputValue = "") (h2 : s.sending = false)
    (h3 : env.chat = ChatOutcome.response 200 r) (h4 : r.success = false) :
    (sendMessage env s).state.messages.getLast? =
      some (mkTextMsg (s.messageId + 3) (jsOr r.message fallbackText)) ∧
    (∀ m, r.message = some m → ¬ m = "" → jsOr r.message fallbackText = m) ∧
    ((r.message = none ∨ r.message = some "") →
      jsOr r.message fallbackText = fallbackText) ∧
    ¬ fallbackText = "" := by
  refine ⟨?_, ?_, ?_, by decide⟩
  · have hok : tryBody env
        (PageData.mk (optimisticLog s) "" true (s.messageId + 2)) =
        Except.ok (PageData.mk
          ((optimisticLog s).filter notLoading ++
            [mkTextMsg (s.messageId + 2 + 1) (jsOr r.message fallbackText)])
          "" true (s.messageId + 2 + 1),
          mkTextMsg (s.messageId + 2 + 1) (jsOr r.message fallbackText)) := by
      simp [tryBody, callChatAPI, h3, h4]
    rw [sendMessage_ok_shape env s h1 h2 _ _ hok]
    exact getLast?_append_singleton _ _
  · intro m hm hne
    simp [jsOr, hm, hne]
  · rintro (hm | hm) <;> simp [jsOr, hm]

/-- Witness for `soft_failure_fallback`: a `success: false` response with no
`message` field yields the fixed fallback text. -/
theorem soft_failure_fallback_witness :
    softResp.success = false ∧ softResp.message = none ∧
    (sendMessage envSoft sReady).state.messages.getLast? =
      some (mkTextMsg 3 (jsOr softResp.message fallbackText)) :=
  ⟨rfl, rfl,
    (soft_failure_fallback envSoft sReady softResp (by decide) rfl rfl rfl).1⟩

/-- Counterexample for C7 as stated: a failure response that does supply a
`message` field — the empty string — does not get that string as content; the
code's falsy check substitutes the fixed fallback instead. -/
theorem soft_failure_cex :
    emptyMsgResp.message = some "" ∧
    (sendMessage envEmptyMsg sReady).state.messages.getLast? =
      some (mkTextMsg 3 fallbackText) ∧
    ¬ fallbackText = "" := by
  refine ⟨rfl, ?_, by decide⟩
  rfl

/-- Witness for `image_cap`: a fetch returning 7 paths yields exactly 6. -/
theorem image_cap_witness :
    imgEnvSeven "LI4" = ImgOutcome.response 200
      { images := some ["/i1.png", "/i2.png", "/i3.png", "/i4.png", "/i5.png",
                        "/i6.png", "/i7.png"] } ∧
    (resolvePoint "https://api.example" imgEnvSeven
      (RecommendedPoint.mk "LI4" [])).images.length = min 7 6 :=
  ⟨rfl,
    (image_cap "https://api.example" imgEnvSeven (RecommendedPoint.mk "LI4" [])
      ["/i1.png", "/i2.png", "/i3.png", "/i4.png", "/i5.png", "/i6.png",
       "/i7.png"] rfl).2⟩

/-- C1: every accepted submission performs exactly the mutation sequence
append(User), append(Loading), remove(Loading by kind), append(terminal), in
that order, on every outcome branch; replaying the sequence reproduces the
final log, the rendered snapshots are exactly the state after the two appends
and the state after the remove-then-append, and each rendered snapshot holds a
loading message or the terminal message but never both and never neither. -/
theorem loading_bracket (env : SubmitEnv) (s : PageData)
    (h1 : ¬ trimString s.inputValue = "") (h2 : s.sending = false)
    (h3 : ∀ m ∈ s.messages, m.id ≤ s.messageId) :
    ∃ u l t : Msg,
      (sendMessage env s).trace =
        [LogEvent.append u, LogEvent.append l, LogEvent.removeLoading,
         LogEvent.append t] ∧
      u.isUser = true ∧ u.type = none ∧
      u.content = some (trimString s.inputValue) ∧
      l.isUser = false ∧ l.type = some MsgType.loading ∧
      t.isUser = false ∧
      (t.type = some MsgType.text ∨ t.type = some MsgType.diagnosis) ∧
      applyEvents s.messages (sendMessage env s).trace =
        (sendMessage env s).state.messages ∧
      (sendMessage env s).snapshots =
        [applyEvents s.messages [LogEvent.append u, LogEvent.append l],
         (sendMessage env s).state.messages] ∧
      (∀ v ∈ (sendMessage env s).snapshots,
        ((∃ m ∈ v, m.type = some MsgType.loading) ↔ ¬ t ∈ v)) := by
  obtain ⟨t, heq, hid, hiu, hty⟩ := sendMessage_accepted_shape env s h1 h2
  refine ⟨mkUserMsg (s.messageId + 1) (trimString s.inputValue),
    mkLoadingMsg (s.messageId + 2), t, ?_, rfl, rfl, rfl, rfl, rfl, hiu, hty,
    ?_, ?_, ?_⟩
  · rw [heq]
  · rw [heq]
    simp [applyEvents, applyEvent, optimisticLog, List.append_assoc]
  · rw [heq]
    simp [applyEvents, applyEvent, optimisticLog, List.append_assoc]
  · rw [heq]
    intro v hv
    simp only [List.mem_cons, List.not_mem_nil, or_false, List.mem_singleton]
      at hv
    rcases hv with rfl | rfl
    · refine iff_of_true
        ⟨mkLoadingMsg (s.messageId + 2), ?_, rfl⟩ ?_
      · unfold optimisticLog
        exact List.mem_append_right _ (by simp)
      · intro ht
        unfold optimisticLog at ht
        rcases List.mem_append.1 ht with hin | hin
        · have := h3 t hin
          omega
        · simp only [List.mem_cons, List.not_mem_nil, or_false,
            List.mem_singleton] at hin
          rcases hin with rfl | rfl
          · simp [mkUserMsg] at hiu
          · simp [mkLoadingMsg] at hty
    · refine iff_of_false ?_ ?_
      · rintro ⟨m, hm, hml⟩
        rcases List.mem_append.1 hm with hin | hin
        · have := List.of_mem_filter hin
          simp [notLoading, hml] at this
        · simp only [List.mem_singleton] at hin
          subst hin
          rcases hty with h | h <;> rw [hml] at h <;> exact Option.noConfusion h
            (fun hh => MsgType.noConfusion hh)
      · intro hnot
        exact hnot (List.mem_append_right _ (by simp))

/-- Witness for `loading_bracket`: the fresh-session transport-failure run. -/
theorem loading_bracket_witness :
    ¬ trimString sReady.inputValue = "" ∧ sReady.sending = false ∧
    (∀ m ∈ sReady.messages, m.id ≤ sReady.messageId) ∧
    ∃ u l t : Msg,
      (sendMessage envFail sReady).trace =
        [LogEvent.append u, LogEvent.append l, LogEvent.removeLoading,
         LogEvent.append t] ∧
      u.isUser = true ∧ u.type = none ∧
      u.content = some (trimString sReady.inputValue) ∧
      l.isUser = false ∧ l.type = some MsgType.loading ∧
      t.isUser = false ∧
      (t.type = some MsgType.text ∨ t.type = some MsgType.diagnosis) ∧
      applyEvents sReady.messages (sendMessage envFail sReady).trace =
        (sendMessage envFail sReady).state.messages ∧
      (sendMessage envFail sReady).snapshots =
        [applyEvents sReady.messages [LogEvent.append u, LogEvent.append l],
         (sendMessage envFail sReady).state.messages] ∧
      (∀ v ∈ (sendMessage envFail sReady).snapshots,
        ((∃ m ∈ v, m.type = some MsgType.loading) ↔ ¬ t ∈ v)) := by
  refine ⟨by decide, rfl, by simp [sReady], ?_⟩
  obtain ⟨u, l, t, hrest⟩ :=
    loading_bracket envFail sReady (by decide) rfl (by simp [sReady])
  exact ⟨u, l, t, hrest⟩

/-- Session invariant: along any run, the appended-id list is an
increasing chain sitting strictly between the starting counter and the final
counter, and the log's ids stay bounded by the counter. -/
theorem runSession_ids (subs : List (String × SubmitEnv)) :
    ∀ s : PageData, (∀ m ∈ s.messages, m.id ≤ s.messageId) →
      List.Chain' (· < ·) (runSession s subs).2 ∧
      (∀ i ∈ (runSession s subs).2,
        s.messageId < i ∧ i ≤ (runSession s subs).1.messageId) ∧
      s.messageId ≤ (runSession s subs).1.messageId ∧
      (∀ m ∈ (runSession s subs).1.messages,
        m.id ≤ (runSession s subs).1.messageId) := by
  induction subs with
  | nil =>
    intro s h
    exact ⟨List.chain'_nil, by simp [runSession], Nat.le_refl _, h⟩
  | cons step rest ih =>
    obtain ⟨txt, env⟩ := step
    intro s h
    simp only [runSession]
    by_cases hg : trimString txt = "" ∨ s.sending = true
    · rw [sendMessage_rejected env (PageData.mk s.messages txt s.sending
        s.messageId) hg]
      simpa [appendedIds] using
        ih (PageData.mk s.messages txt s.sending s.messageId) h
    · rw [not_or] at hg
      obtain ⟨h1', h2'⟩ := hg
      have h2s : s.sending = false := by
        cases hs : s.sending
        · rfl
        · exact absurd hs h2'
      obtain ⟨t, heq, hid, hiu, hty⟩ := sendMessage_accepted_shape env
        (PageData.mk s.messages txt s.sending s.messageId) h1' h2s
      simp only at hid
      rw [heq]
      dsimp only
      simp only [appendedIds, mkUserMsg, mkLoadingMsg]
      have hb : ∀ m ∈ ((optimisticLog (PageData.mk s.messages txt s.sending
          s.messageId)).filter notLoading ++ [t]),
          m.id ≤ s.messageId + 3 := by
        intro m hm
        rcases List.mem_append.1 hm with hin | hin
        · have hin2 := List.mem_of_mem_filter hin
          unfold optimisticLog at hin2
          rcases List.mem_append.1 hin2 with hin3 | hin3
          · have := h m hin3
            omega
          · simp only [List.mem_cons, List.not_mem_nil, or_false,
              List.mem_singleton] at hin3
            rcases hin3 with rfl | rfl
            · simp [mkUserMsg]
            · simp [mkLoadingMsg]
        · simp only [List.mem_singleton] at hin
          subst hin
          omega
      have IH2 := ih (PageData.mk ((optimisticLog (PageData.mk s.messages txt
        s.sending s.messageId)).filter notLoading ++ [t]) "" false
        (s.messageId + 3)) hb
      simp only at IH2
      refine ⟨?_, ?_, ?_, IH2.2.2.2⟩
      · rw [List.chain'_append]
        refine ⟨by simp [List.chain'_cons]; omega, IH2.1, ?_⟩
        intro x hx y hy
        have hx2 : x = t.id := by
          simp only [List.getLast?_cons_cons, List.getLast?_singleton,
            Option.mem_def, Option.some_inj] at hx
          omega
        have hy2 := IH2.2.1 y (List.mem_of_mem_head? hy)
        omega
      · intro i hi
        rcases List.mem_append.1 hi with hin | hin
        · simp only [List.mem_cons, List.not_mem_nil, or_false,
            List.mem_singleton] at hin
          have hfin := IH2.2.2.1
          rcases hin with rfl | rfl | rfl <;> omega
        · have := IH2.2.1 i hin
          omega
      · have := IH2.2.2.1
        omega

/-- C9: message ids are unique and strictly increasing across the whole
session: every append (user, loading or terminal, including loading messages
later removed) receives an id strictly greater than all earlier appended ids,
and no id is ever reused. -/
theorem session_ids_strictly_increasing (s : PageData)
    (subs : List (String × SubmitEnv))
    (h : ∀ m ∈ s.messages, m.id ≤ s.messageId) :
    List.Pairwise (· < ·) (runSession s subs).2 ∧
    (runSession s subs).2.Nodup := by
  have hp : List.Pairwise (· < ·) (runSession s subs).2 :=
    List.chain'_iff_pairwise.mp (runSession_ids subs s h).1
  exact ⟨hp, hp.imp Nat.ne_of_lt⟩

/-- Witness for `session_ids_strictly_increasing`: a fresh session with one
soft failure and one transport failure. -/
theorem session_ids_strictly_increasing_witness :
    (∀ m ∈ (PageData.mk [] "" false 0).messages,
      m.id ≤ (PageData.mk [] "" false 0).messageId) ∧
    List.Pairwise (· < ·)
      (runSession (PageData.mk [] "" false 0)
        [("hi", envSoft), ("again", envFail)]).2 :=
  ⟨by simp,
    (session_ids_strictly_increasing (PageData.mk [] "" false 0)
      [("hi", envSoft), ("again", envFail)] (by simp)).1⟩

end Acupressure
